import Mathlib

/-!
Verification of the seasonal forecasting engine of the Exora weather-outlook
application (frontend/src/pages/WeatherPredictor.jsx).

The engine consists of three pure functions:
  * generateForecast      : windowed, recency-weighted point prediction
  * generateNormalDistribution : discretized Gaussian curve for charts
  * generateTimeSeriesData : per-year same-month trend means

JavaScript numbers are modelled as follows: a finite value is idealized as a
rational number (float rounding is out of scope); NaN and the two infinities
are explicit constructors, because the code distinguishes them through
isNaN.  JavaScript Date construction (new Date(y, m, d)) is modelled with
its real semantics: out-of-range month/day components roll over into
adjacent months/years (proleptic Gregorian normalization), and a year
component in 0..99 is shifted to 1900+y.  Square roots, pi and exp are
modelled over the real numbers.
-/

/-- A JavaScript number: NaN, +Infinity, -Infinity, or a finite value
idealized as a rational. -/
inductive JsNum where
  | nan : JsNum
  | inf : JsNum
  | ninf : JsNum
  | num (q : ℚ) : JsNum
deriving DecidableEq

/-- JavaScript isNaN on a number (no string coercion needed here). -/
def JsNum.isNaN : JsNum → Bool
  | .nan => true
  | _ => false

/-- JavaScript Number.isFinite. -/
def JsNum.isFiniteNum : JsNum → Bool
  | .num _ => true
  | _ => false

/-- The rational denotation of a finite JavaScript number (0 for the
non-finite values; the pipeline theorems only apply it to finite ones). -/
def JsNum.toRat : JsNum → ℚ
  | .num q => q
  | _ => 0

/-- A calendar date as observed through a valid JS Date object:
year as getFullYear(), month as getMonth() (0-based), day as getDate(). -/
structure CivilDate where
  year : ℤ
  month : ℤ
  day : ℤ
deriving DecidableEq

/-- Gregorian leap-year test. -/
def isLeap (y : ℤ) : Bool :=
  (y % 4 == 0 && y % 100 != 0) || (y % 400 == 0)

/-- Days since the civil epoch 1970-01-01 of year y, month m (1-based),
day d; the standard civil-calendar conversion used by date libraries. -/
def daysFromCivil (y m d : ℤ) : ℤ :=
  let yy := if m ≤ 2 then y - 1 else y
  let era := Int.fdiv yy 400
  let yoe := yy - era * 400
  let mp := Int.emod (m + 9) 12
  let doy := Int.fdiv (153 * mp + 2) 5 + d - 1
  let doe := yoe * 365 + Int.fdiv yoe 4 - Int.fdiv yoe 100 + doy
  era * 146097 + doe - 719468

/-- Inverse of daysFromCivil: the calendar date of an epoch-day number,
with the month stored 0-based as JS getMonth() reports it. -/
def civilFromDays (z0 : ℤ) : CivilDate :=
  let z := z0 + 719468
  let era := Int.fdiv z 146097
  let doe := z - era * 146097
  let yoe := Int.fdiv (doe - Int.fdiv doe 1460 + Int.fdiv doe 36524 - Int.fdiv doe 146096) 365
  let y := yoe + era * 400
  let doy := doe - (365 * yoe + Int.fdiv yoe 4 - Int.fdiv yoe 100)
  let mp := Int.fdiv (5 * doy + 2) 153
  let d := doy - Int.fdiv (153 * mp + 2) 5 + 1
  let m := if mp < 10 then mp + 3 else mp - 9
  { year := if m ≤ 2 then y + 1 else y, month := m - 1, day := d }

/-- Semantics of the JavaScript constructor new Date(y, m, d) with numeric
arguments: a year in 0..99 means 1900+y; the 0-based month and the day are
normalized by calendar rollover (e.g. month 12 is January of the next year,
day 0 is the last day of the previous month, Feb 31 is March 3). -/
def jsMakeDate (y m d : ℤ) : CivilDate :=
  let yy := if 0 ≤ y ∧ y ≤ 99 then y + 1900 else y
  let ym := yy + Int.fdiv m 12
  let mm := Int.emod m 12
  civilFromDays (daysFromCivil ym (mm + 1) 1 + (d - 1))

/-- JavaScript String.prototype.substring(a, b) for a ≤ b, as a character
list (indices clamp to the string length). -/
def jsSubstring (s : String) (a b : ℕ) : List Char :=
  (s.data.drop a).take (b - a)

/-- Numeric coercion of one of the digit slices, modelling how the JS Date
constructor coerces its string arguments through Number: the empty string
is 0, a run of decimal digits is its value, anything else is NaN (none). -/
def parseDigits (cs : List Char) : Option ℤ :=
  cs.foldl
    (fun acc c =>
      match acc with
      | none => none
      | some n => if c.isDigit then some (n * 10 + ((c.toNat : ℤ) - 48)) else none)
    (some 0)

/-- The date parse performed by both pipeline functions:
new Date(s.substring(0,4), s.substring(4,6) - 1, s.substring(6,8)).
A slice containing a non-digit makes the component NaN, hence an Invalid
Date, modelled as none (all of its getters are NaN and every comparison
against it is false). -/
def parseDate8 (s : String) : Option CivilDate :=
  match parseDigits (jsSubstring s 0 4), parseDigits (jsSubstring s 4 6),
      parseDigits (jsSubstring s 6 8) with
  | some y, some m, some d => some (jsMakeDate y (m - 1) d)
  | _, _, _ => none

/-- One mapped entry of a historical series, as built by the .map step of
generateForecast / generateTimeSeriesData: the (possibly invalid) parsed
date together with the raw value.  The month and day fields of the JS
object are the projections of the date and are not duplicated here. -/
structure VItem where
  date : Option CivilDate
  value : JsNum
deriving DecidableEq

/-- The rational denotation of an item's (finite) value. -/
def itemVal (it : VItem) : ℚ := it.value.toRat

/-- The .map step over Object.entries of one variable's series. -/
def entryItems (series : List (String × JsNum)) : List VItem :=
  series.map (fun e => { date := parseDate8 e.1, value := e.2 })

/-- The filter !isNaN(item.value) of generateForecast. -/
def validItems (series : List (String × JsNum)) : List VItem :=
  (entryItems series).filter (fun it => !it.value.isNaN)

/-- The seasonal-window test of generateForecast:
item.month === targetMonth && Math.abs(item.day - targetDay) <= 7.
An invalid date has NaN month/day, so both comparisons are false. -/
def inWindowB (tm td : ℤ) (it : VItem) : Bool :=
  match it.date with
  | some d => decide (d.month = tm ∧ |d.day - td| ≤ 7)
  | none => false

/-- The seasonalData array of generateForecast for one variable. -/
def seasonalData (series : List (String × JsNum)) (tm td : ℤ) : List VItem :=
  (validItems series).filter (inWindowB tm td)

/-- The month-equality test of generateTimeSeriesData:
item.date.getMonth() === targetMonth. -/
def monthMatchB (tm : ℤ) (it : VItem) : Bool :=
  match it.date with
  | some d => decide (d.month = tm)
  | none => false

/-- Sort key of an item with a valid date: its epoch-day number, the
quantity (up to the constant ms-per-day factor) that the JS comparators
b.date - a.date and a.date - b.date subtract. -/
def dateKey (it : VItem) : ℤ :=
  match it.date with
  | some d => daysFromCivil d.year (d.month + 1) d.day
  | none => 0

/-- Comparator order of sort((a, b) => b.date - a.date): descending by
date, stable (JS array sort is stable). -/
def byDateDesc (a b : VItem) : Prop := dateKey b ≤ dateKey a

instance : DecidableRel byDateDesc :=
  fun a b => inferInstanceAs (Decidable (dateKey b ≤ dateKey a))

instance : IsTotal VItem byDateDesc := ⟨fun a b => (le_total (dateKey b) (dateKey a))⟩

instance : IsTrans VItem byDateDesc := ⟨fun _ _ _ hab hbc => le_trans hbc hab⟩

/-- Comparator order of sort((a, b) => a.date - b.date): ascending by
date, stable. -/
def byDateAsc (a b : VItem) : Prop := dateKey a ≤ dateKey b

instance : DecidableRel byDateAsc :=
  fun a b => inferInstanceAs (Decidable (dateKey a ≤ dateKey b))

instance : IsTotal VItem byDateAsc := ⟨fun a b => le_total (dateKey a) (dateKey b)⟩

instance : IsTrans VItem byDateAsc := ⟨fun _ _ _ hab hbc => le_trans hab hbc⟩

/-- The forEach accumulation of generateForecast over the sorted values,
carried out with a running 0-based index: weight = 1 / (idx + 1),
weightedSum += value * weight, weightSum += weight.  Returns the pair
(weightedSum, weightSum). -/
def weightedSums : List ℚ → ℕ → ℚ × ℚ
  | [], _ => (0, 0)
  | v :: vs, idx =>
    let rest := weightedSums vs (idx + 1)
    (v * (1 / ((idx : ℚ) + 1)) + rest.1, 1 / ((idx : ℚ) + 1) + rest.2)

/-- The numeric content of one emitted prediction that is computed with
rational arithmetic: the weighted mean, the population variance and the
sample count.  (The emitted record additionally carries the square root of
the variance and real-valued derived fields; see mkPrediction.) -/
structure CoreStats where
  value : ℚ
  variance : ℚ
  samples : ℕ
deriving DecidableEq

/-- The seasonal window of a series of finite (rational-valued)
observations: seasonalData after injecting the values into JsNum. -/
def windowOf (series : List (String × ℚ)) (tm td : ℤ) : List VItem :=
  seasonalData (series.map (fun e => (e.1, JsNum.num e.2))) tm td

/-- The weighted predictor applied to a value list (most recent first):
predicted = weightedSum / weightSum from the forEach fold. -/
def predictedOf (vs : List ℚ) : ℚ :=
  (weightedSums vs 0).1 / (weightedSums vs 0).2

/-- The per-variable body of generateForecast up to the point where the
prediction record is assembled: window the valid values, and if the window
is non-empty sort it by date descending, fold the harmonic weights, and
form the weighted mean and the unweighted population variance about it. -/
def forecastCore (series : List (String × ℚ)) (tm td : ℤ) : Option CoreStats :=
  let sd := windowOf series tm td
  if 0 < sd.length then
    let sorted := List.insertionSort byDateDesc sd
    let predicted := predictedOf (sorted.map itemVal)
    let variance :=
      ((sd.map itemVal).map (fun v => (v - predicted) ^ 2)).sum / (sd.length : ℚ)
    some { value := predicted, variance := variance, samples := sd.length }
  else none

/-- Partial sums of the harmonic weights: wsum k n is the sum of
1 / (k + i + 1) over i = 0 .. n - 1, i.e. the total weight that a block of
n consecutive observations starting at rank k receives. -/
def wsum : ℕ → ℕ → ℚ
  | _, 0 => 0
  | k, n + 1 => 1 / ((k : ℚ) + 1) + wsum (k + 1) n

/-- A point of the synthesized distribution: { value: x, probability: y * 100 }. -/
structure DistPoint where
  value : ℝ
  probability : ℝ

/-- The Gaussian density expression of generateNormalDistribution:
y = (1 / (stdDev * sqrt(2 PI))) * exp(-(x - mean)^2 / (2 * stdDev^2)). -/
noncomputable def gaussY (mean stdDev x : ℝ) : ℝ :=
  (1 / (stdDev * Real.sqrt (2 * Real.pi))) *
    Real.exp (-(x - mean) ^ 2 / (2 * stdDev ^ 2))

/-- generateNormalDistribution(mean, stdDev, samples): range = 4 * stdDev,
step = range / samples, and for i = 0 .. samples-1 the point has
value x = mean - range / 2 + i * step and probability gaussY * 100.
The loop that pushes one point per index is rendered as a map over the
index range. -/
noncomputable def generateNormalDistribution (mean stdDev : ℝ) (samples : ℕ) :
    List DistPoint :=
  (List.range samples).map (fun (i : ℕ) =>
    let range := stdDev * 4
    let step := range / (samples : ℝ)
    let x := mean - range / 2 + (i : ℝ) * step
    { value := x, probability := gaussY mean stdDev x * 100 })

/-- The number of samples generateForecast requests from
generateNormalDistribution (the default of its samples argument). -/
def defaultSamples : ℕ := 50

/-- The confidence expression of generateForecast:
Math.max(0, Math.min(100, 100 - (stdDev / Math.abs(predicted)) * 50)). -/
noncomputable def jsConfidence (predicted stdDev : ℝ) : ℝ :=
  max 0 (min 100 (100 - stdDev / |predicted| * 50))

/-- One emitted prediction record of generateForecast. -/
structure Prediction where
  value : ℚ
  confidence : ℝ
  rangeMin : ℝ
  rangeMax : ℝ
  stdDev : ℝ
  samples : ℕ
  distribution : List DistPoint

/-- Assembly of the prediction record from the rational core statistics,
exactly as generateForecast builds it: stdDev = Math.sqrt(variance),
confidence from jsConfidence, range from predicted minus/plus stdDev, and the
distribution synthesized from (predicted, stdDev) with the default sample
count. -/
noncomputable def mkPrediction (c : CoreStats) : Prediction :=
  let stdDev := Real.sqrt (c.variance : ℝ)
  { value := c.value
    confidence := jsConfidence (c.value : ℝ) stdDev
    rangeMin := (c.value : ℝ) - stdDev
    rangeMax := (c.value : ℝ) + stdDev
    stdDev := stdDev
    samples := c.samples
    distribution := generateNormalDistribution (c.value : ℝ) stdDev defaultSamples }

/-- The per-variable result of generateForecast: no entry when the seasonal
window is empty, otherwise the assembled prediction record. -/
noncomputable def forecastFor (series : List (String × ℚ)) (tm td : ℤ) :
    Option Prediction :=
  (forecastCore series tm td).map mkPrediction

/-- generateForecast over a whole historical data set: the predictions
object holds one entry per variable whose window is non-empty.  The object
keyed by parameter name is rendered as an association list in key order. -/
noncomputable def generateForecastAll (data : List (String × List (String × ℚ)))
    (tm td : ℤ) : List (String × Prediction) :=
  data.filterMap (fun pr => (forecastFor pr.2 tm td).map (fun p => (pr.1, p)))

/-- The entries array of generateTimeSeriesData for one variable: map,
filter !isNaN(value) && month === targetMonth, sort by date ascending. -/
def trendFiltered (series : List (String × JsNum)) (tm : ℤ) : List VItem :=
  List.insertionSort byDateAsc
    ((entryItems series).filter (fun it => !it.value.isNaN && monthMatchB tm it))

/-- Walk of the grouping loop over the entries: a year opens a new bucket
(is emitted) exactly when it has not been seen before. -/
def keysInOrderAux : List ℤ → List ℤ → List ℤ
  | [], _ => []
  | y :: ys, seen =>
    if y ∈ seen then keysInOrderAux ys seen else y :: keysInOrderAux ys (y :: seen)

/-- Distinct keys in first-insertion order, as a JS object built by pushing
into per-year buckets enumerates them (the years arrive in ascending order
here, so insertion order and the ascending numeric order of integer-like
object keys coincide; the result is additionally sorted below as the code
does). -/
def keysInOrder (l : List ℤ) : List ℤ := keysInOrderAux l []

/-- The year bucket of one year: the values of the (month-filtered) items
whose date lies in that year, in list order. -/
def yearVals (items : List VItem) (y : ℤ) : List ℚ :=
  (items.filter (fun it => it.date.map CivilDate.year == some y)).map itemVal

/-- The year of an item with a valid date. -/
def yearOf (it : VItem) : Option ℤ := it.date.map CivilDate.year

/-- Comparator order of monthlyData.sort((a, b) => a.year - b.year). -/
def byYearAsc (a b : ℤ × ℚ) : Prop := a.1 ≤ b.1

instance : DecidableRel byYearAsc :=
  fun a b => inferInstanceAs (Decidable (a.1 ≤ b.1))

instance : IsTotal (ℤ × ℚ) byYearAsc := ⟨fun a b => le_total a.1 b.1⟩

instance : IsTrans (ℤ × ℚ) byYearAsc := ⟨fun _ _ _ hab hbc => le_trans hab hbc⟩

/-- generateTimeSeriesData for one variable: group the month-filtered,
date-sorted entries by year, emit (year, mean of the year's bucket) per
year, and sort the result by year ascending. -/
def generateTimeSeriesData (series : List (String × ℚ)) (tm : ℤ) : List (ℤ × ℚ) :=
  let items := trendFiltered (series.map (fun e => (e.1, JsNum.num e.2))) tm
  let years := keysInOrder (items.filterMap yearOf)
  List.insertionSort byYearAsc
    (years.map (fun y => (y, (yearVals items y).sum / ((yearVals items y).length : ℚ))))

/-- Reference definition (spec, section 4.2 step 2-3): the weighted mean
of the values v_0 .. v_(n-1) listed most recent first, with harmonic
weights w_i = 1 / (i + 1) at 0-based rank i:
sum(v_i * w_i) / sum(w_i). -/
def specWeightedMean (vs : List ℚ) : ℚ :=
  (∑ i in Finset.range vs.length, vs.getD i 0 * (1 / ((i : ℚ) + 1))) /
    ∑ i in Finset.range vs.length, 1 / ((i : ℚ) + 1)

/-- Reference definition (spec, section 4.2 step 4): the unweighted
population variance of the matched values about a given mean:
sum((v - mean)^2) / n. -/
def specVariance (vs : List ℚ) (mean : ℚ) : ℚ :=
  (vs.map (fun v => (v - mean) ^ 2)).sum / (vs.length : ℚ)

/-- Reference definition (spec, section 4.3): the Gaussian probability
density with the given mean and standard deviation, in the textbook form
exp(-(x - mean)^2 / (2 sigma^2)) / sqrt(2 pi sigma^2). -/
noncomputable def specNormalPdf (mean stdDev x : ℝ) : ℝ :=
  Real.exp (-(x - mean) ^ 2 / (2 * stdDev ^ 2)) / Real.sqrt (2 * Real.pi * stdDev ^ 2)

/-- Reference definition (spec, sections 4.4 and 8): the recomputed year
bucket — the values of the series entries whose date parses to the given
year and target month, straight from the raw series. -/
def specYearMonthVals (series : List (String × ℚ)) (tm y : ℤ) : List ℚ :=
  series.filterMap (fun e =>
    match parseDate8 e.1 with
    | some d => if d.month = tm ∧ d.year = y then some e.2 else none
    | none => none)

/-- Whether an 8-character date string denotes a valid proleptic Gregorian
calendar date (digits only, month 1..12, day within the month's length). -/
def daysInMonth (y m : ℤ) : ℤ :=
  if m = 2 then (if isLeap y then 29 else 28)
  else if m = 4 ∨ m = 6 ∨ m = 9 ∨ m = 11 then 30
  else 31

/-- Validity of an 8-character YYYYMMDD date string. -/
def isValidDate8 (s : String) : Bool :=
  s.length == 8 && s.data.all Char.isDigit &&
    (match parseDigits (jsSubstring s 0 4), parseDigits (jsSubstring s 4 6),
        parseDigits (jsSubstring s 6 8) with
     | some y, some m, some d =>
       decide (1 ≤ m ∧ m ≤ 12 ∧ 1 ≤ d ∧ d ≤ daysInMonth y m)
     | _, _, _ => false)

theorem inWindowB_eq_true {tm td : ℤ} {it : VItem} :
    inWindowB tm td it = true ↔
      ∃ d, it.date = some d ∧ d.month = tm ∧ |d.day - td| ≤ 7 := by
  obtain ⟨od, v⟩ := it
  cases od with
  | none => simp [inWindowB]
  | some d => simp [inWindowB]

theorem mem_seasonalData {series : List (String × JsNum)} {tm td : ℤ} {it : VItem} :
    it ∈ seasonalData series tm td ↔
      (it ∈ entryItems series ∧ it.value.isNaN = false) ∧
        ∃ d, it.date = some d ∧ d.month = tm ∧ |d.day - td| ≤ 7 := by
  simp only [seasonalData, validItems, List.mem_filter, inWindowB_eq_true,
    Bool.not_eq_true']

/-- Claim C2: every observation contributing to a variable's prediction has
parsed month equal to the target month and day-of-month within 7 of the
target day; in particular, for a December 31 target no January (month 0)
observation is ever included. -/
theorem seasonal_window_bounds (series : List (String × JsNum)) (tm td : ℤ) :
    (∀ it ∈ seasonalData series tm td,
      ∃ d, it.date = some d ∧ d.month = tm ∧ |d.day - td| ≤ 7) ∧
    (∀ it ∈ seasonalData series 11 31, ∀ d, it.date = some d → ¬ d.month = 0) := by
  refine ⟨fun it hit => (mem_seasonalData.mp hit).2, fun it hit d hd hm => ?_⟩
  obtain ⟨d', hd', hm', _⟩ := (mem_seasonalData.mp hit).2
  have hdd : d = d' := by rw [hd] at hd'; exact Option.some.inj hd'
  subst hdd
  omega

theorem seasonal_window_bounds_witness :
    (⟨some ⟨2023, 11, 28⟩, JsNum.num 3⟩ : VItem) ∈
        seasonalData [("20231228", JsNum.num 3)] 11 31 ∧
    ∃ d, (⟨some ⟨2023, 11, 28⟩, JsNum.num 3⟩ : VItem).date = some d ∧
      d.month = 11 ∧ |d.day - 31| ≤ 7 :=
  ⟨by decide, (seasonal_window_bounds [("20231228", JsNum.num 3)] 11 31).1 _ (by decide)⟩

/-- Claim C7 counterexample: an Infinity value passes the isNaN filter, so
a windowed observation can carry a non-finite value. -/
theorem infinite_value_not_discarded :
    (⟨some ⟨2023, 5, 15⟩, JsNum.inf⟩ : VItem) ∈
        seasonalData [("20230615", JsNum.inf)] 5 15 ∧
    JsNum.isFiniteNum JsNum.inf = false ∧ JsNum.isNaN JsNum.inf = false := by
  decide

/-- Claim C7 (amended): the value filter discards exactly the NaN values,
so no windowed observation carries a NaN value. -/
theorem windowed_values_not_nan (series : List (String × JsNum)) (tm td : ℤ) :
    ∀ it ∈ seasonalData series tm td, it.value.isNaN = false :=
  fun _ hit => (mem_seasonalData.mp hit).1.2

theorem windowed_values_not_nan_witness :
    (VItem.mk (some ⟨2023, 5, 15⟩) (JsNum.num 3)).value.isNaN = false :=
  windowed_values_not_nan [("20230615", JsNum.num 3)] 5 15 _ (by decide)

/-- Claim C8 counterexample: "20230231" (February 31) does not denote a
valid calendar date, yet it is not discarded: the JS Date constructor rolls
it over to March 3, and it contributes one sample to the prediction for a
March 3 target. -/
theorem invalid_date_contributes :
    isValidDate8 "20230231" = false ∧
    (⟨some ⟨2023, 2, 3⟩, JsNum.num 5⟩ : VItem) ∈
        seasonalData [("20230231", JsNum.num 5)] 2 3 ∧
    forecastCore [("20230231", (5 : ℚ))] 2 3 =
      some { value := 5, variance := 0, samples := 1 } := by
  refine ⟨by decide, by decide, ?_⟩
  have hw : windowOf [("20230231", (5 : ℚ))] 2 3 = [⟨some ⟨2023, 2, 3⟩, JsNum.num 5⟩] := by
    decide
  simp only [forecastCore, hw]
  norm_num [List.insertionSort, List.orderedInsert, predictedOf, weightedSums,
    itemVal, JsNum.toRat]

/-- Claim C8 (amended): an entry whose date string has a non-numeric
component yields an Invalid Date and is excluded from both the seasonal
window and the trend entries (and the computation is total, so it never
fails); numeric but out-of-range date strings are instead normalized by
calendar rollover and participate under the rolled-over date. -/
theorem unparseable_dates_excluded (series : List (String × JsNum)) (tm td : ℤ) :
    (∀ it ∈ seasonalData series tm td, it.date.isSome = true) ∧
    (∀ it ∈ trendFiltered series tm, it.date.isSome = true) := by
  constructor
  · intro it hit
    obtain ⟨d, hd, _⟩ := (mem_seasonalData.mp hit).2
    simp [hd]
  · intro it hit
    have hmem : it ∈ (entryItems series).filter
        (fun it => !it.value.isNaN && monthMatchB tm it) :=
      (List.perm_insertionSort byDateAsc _).mem_iff.mp hit
    have h := (List.mem_filter.mp hmem).2
    obtain ⟨od, v⟩ := it
    cases od with
    | none => simp [monthMatchB] at h
    | some d => rfl

theorem unparseable_dates_excluded_witness :
    (VItem.mk (some ⟨2023, 5, 15⟩) (JsNum.num 2)).date.isSome = true ∧
    (VItem.mk (some ⟨2023, 5, 20⟩) (JsNum.num 2)).date.isSome = true :=
  ⟨(unparseable_dates_excluded [("20230615", JsNum.num 2)] 5 15).1 _ (by decide),
   (unparseable_dates_excluded [("20230620", JsNum.num 2)] 5 15).2 _ (by decide)⟩

/-- Claim C10: calling the distribution synthesizer with stdDev = 0 still
returns (totally, with no error) exactly sampleCount points, and every
point's value equals the mean, since the step size is 0. -/
theorem dist_zero_stddev (mean : ℝ) (n : ℕ) (hn : 1 ≤ n) :
    (generateNormalDistribution mean 0 n).length = n ∧
    ∀ p ∈ generateNormalDistribution mean 0 n, p.value = mean := by
  constructor
  · rw [generateNormalDistribution, List.length_map, List.length_range]
  · intro p hp
    simp only [generateNormalDistribution, List.mem_map, List.mem_range] at hp
    obtain ⟨i, _, rfl⟩ := hp
    norm_num

theorem dist_zero_stddev_witness :
    1 ≤ 3 ∧ ((generateNormalDistribution 5 0 3).length = 3 ∧
      ∀ p ∈ generateNormalDistribution 5 0 3, p.value = 5) :=
  ⟨by norm_num, dist_zero_stddev 5 3 (by norm_num)⟩

/-- Claim C3: for a prediction emitted from a non-empty window whose
weighted mean is nonzero, the emitted confidence equals
max(0, min(100, 100 - (stdDev / |predicted|) * 50)), the emitted stdDev is
nonnegative (it is a square root), and the confidence lies in [0, 100]. -/
theorem confidence_clamped (series : List (String × ℚ)) (tm td : ℤ) (p : Prediction)
    (hp : forecastFor series tm td = some p) (hv : (p.value : ℝ) ≠ 0) :
    p.confidence = max 0 (min 100 (100 - p.stdDev / |(p.value : ℝ)| * 50)) ∧
    0 ≤ p.stdDev ∧ 0 ≤ p.confidence ∧ p.confidence ≤ 100 := by
  rw [forecastFor, Option.map_eq_some'] at hp
  obtain ⟨c, hc, rfl⟩ := hp
  refine ⟨rfl, Real.sqrt_nonneg _, le_max_left _ _, ?_⟩
  exact max_le (by norm_num) (min_le_left _ _)

theorem confidence_clamped_witness :
    ((mkPrediction ⟨4, 0, 2⟩).value : ℝ) ≠ 0 ∧
    ((mkPrediction ⟨4, 0, 2⟩).confidence =
        max 0 (min 100 (100 - (mkPrediction ⟨4, 0, 2⟩).stdDev /
          |((mkPrediction ⟨4, 0, 2⟩).value : ℝ)| * 50)) ∧
      0 ≤ (mkPrediction ⟨4, 0, 2⟩).stdDev ∧
      0 ≤ (mkPrediction ⟨4, 0, 2⟩).confidence ∧
      (mkPrediction ⟨4, 0, 2⟩).confidence ≤ 100) := by
  have hw : windowOf [("20230615", (4 : ℚ)), ("20220615", 4)] 5 15 =
      [⟨some ⟨2023, 5, 15⟩, JsNum.num 4⟩, ⟨some ⟨2022, 5, 15⟩, JsNum.num 4⟩] := by
    decide
  have hcore : forecastCore [("20230615", (4 : ℚ)), ("20220615", 4)] 5 15 =
      some ⟨4, 0, 2⟩ := by
    have hs : List.insertionSort byDateDesc
        [(⟨some ⟨2023, 5, 15⟩, JsNum.num 4⟩ : VItem), ⟨some ⟨2022, 5, 15⟩, JsNum.num 4⟩] =
        [⟨some ⟨2023, 5, 15⟩, JsNum.num 4⟩, ⟨some ⟨2022, 5, 15⟩, JsNum.num 4⟩] := by
      decide
    simp only [forecastCore, hw, hs]
    norm_num [predictedOf, weightedSums, itemVal, JsNum.toRat]
  have hv : ((mkPrediction (⟨4, 0, 2⟩ : CoreStats)).value : ℝ) ≠ 0 := by
    norm_num [mkPrediction]
  exact ⟨hv, confidence_clamped [("20230615", (4 : ℚ)), ("20220615", 4)] 5 15 _
    (by rw [forecastFor, hcore]; rfl) hv⟩

theorem gaussY_eq_specNormalPdf (mean s x : ℝ) (hs : 0 < s) :
    gaussY mean s x = specNormalPdf mean s x := by
  have h2pi : (0 : ℝ) < 2 * Real.pi := by positivity
  unfold gaussY specNormalPdf
  rw [Real.sqrt_mul h2pi.le (s ^ 2), Real.sqrt_sq hs.le]
  have hsq : Real.sqrt (2 * Real.pi) ≠ 0 := ne_of_gt (Real.sqrt_pos.mpr h2pi)
  field_simp
  ring

theorem dist_getD (mean s : ℝ) (n i : ℕ) (hi : i < n) :
    ((generateNormalDistribution mean s n).getD i ⟨0, 0⟩).value =
      mean - s * 4 / 2 + (i : ℝ) * (s * 4 / (n : ℝ)) := by
  unfold generateNormalDistribution
  simp [List.getD_eq_getElem?_getD, List.getElem?_map, List.getElem?_range, hi]

/-- Claim C4: for stdDev > 0 and sampleCount >= 1 the synthesizer returns
exactly sampleCount points; the i-th value is mean - 2 stdDev + i step with
step = 4 stdDev / sampleCount, so the values are strictly ascending, the
first is mean - 2 stdDev and the last is mean + 2 stdDev - step; and each
probability is the Gaussian density at the value times 100, pointwise with
no normalization of the sequence. -/
theorem dist_shape (mean s : ℝ) (n : ℕ) (hs : 0 < s) (hn : 1 ≤ n) :
    (generateNormalDistribution mean s n).length = n ∧
    (∀ i, i < n → ((generateNormalDistribution mean s n).getD i ⟨0, 0⟩).value =
      mean - 2 * s + (i : ℝ) * (4 * s / (n : ℝ))) ∧
    (generateNormalDistribution mean s n).Pairwise (fun p q => p.value < q.value) ∧
    ((generateNormalDistribution mean s n).getD 0 ⟨0, 0⟩).value = mean - 2 * s ∧
    ((generateNormalDistribution mean s n).getD (n - 1) ⟨0, 0⟩).value =
      mean + 2 * s - 4 * s / (n : ℝ) ∧
    ∀ p ∈ generateNormalDistribution mean s n,
      p.probability = specNormalPdf mean s p.value * 100 := by
  have hn0 : (0 : ℝ) < (n : ℝ) := by exact_mod_cast Nat.lt_of_lt_of_le Nat.zero_lt_one hn
  have hstep : (0 : ℝ) < s * 4 / (n : ℝ) := by positivity
  refine ⟨?_, ?_, ?_, ?_, ?_, ?_⟩
  · rw [generateNormalDistribution, List.length_map, List.length_range]
  · intro i hi
    rw [dist_getD mean s n i hi]
    ring
  · unfold generateNormalDistribution
    refine List.Pairwise.map _ (fun a b hab => ?_) (List.pairwise_lt_range n)
    simp only
    have := mul_lt_mul_of_pos_right (show (a : ℝ) < (b : ℝ) by exact_mod_cast hab) hstep
    linarith
  · rw [dist_getD mean s n 0 (Nat.lt_of_lt_of_le Nat.zero_lt_one hn)]
    norm_num
    ring
  · rw [dist_getD mean s n (n - 1) (Nat.sub_lt (Nat.lt_of_lt_of_le Nat.zero_lt_one hn) Nat.zero_lt_one)]
    rw [Nat.cast_sub hn]
    push_cast
    field_simp
    ring
  · intro p hp
    rw [generateNormalDistribution] at hp
    simp only [List.mem_map, List.mem_range] at hp
    obtain ⟨i, _, rfl⟩ := hp
    simp only
    rw [gaussY_eq_specNormalPdf mean s _ hs]

theorem dist_shape_witness :
    (0 : ℝ) < 1 ∧ 1 ≤ 2 ∧
    ((generateNormalDistribution 0 1 2).length = 2 ∧
     (∀ i, i < 2 → ((generateNormalDistribution 0 1 2).getD i ⟨0, 0⟩).value =
       0 - 2 * 1 + (i : ℝ) * (4 * 1 / (2 : ℕ))) ∧
     (generateNormalDistribution 0 1 2).Pairwise (fun p q => p.value < q.value) ∧
     ((generateNormalDistribution 0 1 2).getD 0 ⟨0, 0⟩).value = 0 - 2 * 1 ∧
     ((generateNormalDistribution 0 1 2).getD (2 - 1) ⟨0, 0⟩).value =
       0 + 2 * 1 - 4 * 1 / (2 : ℕ) ∧
     ∀ p ∈ generateNormalDistribution 0 1 2,
       p.probability = specNormalPdf 0 1 p.value * 100) :=
  ⟨by norm_num, by norm_num, dist_shape 0 1 2 (by norm_num) (by norm_num)⟩

theorem mkPrediction_value (c : CoreStats) : (mkPrediction c).value = c.value := rfl

theorem mkPrediction_stdDev (c : CoreStats) :
    (mkPrediction c).stdDev = Real.sqrt (c.variance : ℝ) := rfl

theorem mkPrediction_rangeMin (c : CoreStats) :
    (mkPrediction c).rangeMin = (c.value : ℝ) - Real.sqrt (c.variance : ℝ) := rfl

theorem mkPrediction_rangeMax (c : CoreStats) :
    (mkPrediction c).rangeMax = (c.value : ℝ) + Real.sqrt (c.variance : ℝ) := rfl

theorem mkPrediction_samples (c : CoreStats) : (mkPrediction c).samples = c.samples := rfl

theorem weightedSums_eq (vs : List ℚ) (k : ℕ) :
    weightedSums vs k =
      (∑ i in Finset.range vs.length, vs.getD i 0 * (1 / ((k : ℚ) + (i : ℚ) + 1)),
       ∑ i in Finset.range vs.length, 1 / ((k : ℚ) + (i : ℚ) + 1)) := by
  induction vs generalizing k with
  | nil => simp [weightedSums]
  | cons v vs ih =>
    rw [weightedSums, ih (k + 1)]
    have h1 : ∑ i in Finset.range vs.length, vs.getD i 0 * (1 / (((k + 1 : ℕ) : ℚ) + (i : ℚ) + 1))
        = ∑ i in Finset.range vs.length, vs.getD i 0 * (1 / ((k : ℚ) + ((i + 1 : ℕ) : ℚ) + 1)) :=
      Finset.sum_congr rfl (fun i _ => by push_cast; ring_nf)
    have h2 : ∑ i in Finset.range vs.length, 1 / (((k + 1 : ℕ) : ℚ) + (i : ℚ) + 1)
        = ∑ i in Finset.range vs.length, 1 / ((k : ℚ) + ((i + 1 : ℕ) : ℚ) + 1) :=
      Finset.sum_congr rfl (fun i _ => by push_cast; ring_nf)
    refine Prod.ext ?_ ?_ <;> simp only [List.length_cons] <;>
      rw [Finset.sum_range_succ'] <;>
      simp only [List.getD_cons_succ, List.getD_cons_zero, Nat.cast_zero]
    · rw [h1]; push_cast; ring
    · rw [h2]; push_cast; ring

theorem predictedOf_eq_spec (vs : List ℚ) : predictedOf vs = specWeightedMean vs := by
  rw [predictedOf, weightedSums_eq, specWeightedMean]
  norm_num

theorem forecastCore_eq (series : List (String × ℚ)) (tm td : ℤ) (c : CoreStats)
    (hc : forecastCore series tm td = some c) :
    0 < (windowOf series tm td).length ∧
    c.value = predictedOf
      ((List.insertionSort byDateDesc (windowOf series tm td)).map itemVal) ∧
    c.variance = (((windowOf series tm td).map itemVal).map
        (fun v => (v - c.value) ^ 2)).sum / ((windowOf series tm td).length : ℚ) ∧
    c.samples = (windowOf series tm td).length := by
  simp only [forecastCore] at hc
  split at hc
  · cases hc
    exact ⟨by assumption, rfl, rfl, rfl⟩
  · exact absurd hc (by simp)

/-- Claim C1: an emitted prediction agrees with the reference definition:
its value is the harmonic-weighted mean of the matched values sorted by
date descending, its stdDev is the square root of the unweighted
population variance of the matched values about that mean, its range is
value minus/plus stdDev, and its samples count is the window size. -/
theorem forecast_matches_reference (series : List (String × ℚ)) (tm td : ℤ)
    (c : CoreStats) (hc : forecastCore series tm td = some c) :
    forecastFor series tm td = some (mkPrediction c) ∧
    (mkPrediction c).value = specWeightedMean
      ((List.insertionSort byDateDesc (windowOf series tm td)).map itemVal) ∧
    List.Sorted byDateDesc (List.insertionSort byDateDesc (windowOf series tm td)) ∧
    (List.insertionSort byDateDesc (windowOf series tm td)).Perm (windowOf series tm td) ∧
    (mkPrediction c).stdDev = Real.sqrt ((specVariance ((windowOf series tm td).map itemVal)
        ((mkPrediction c).value) : ℚ) : ℝ) ∧
    (mkPrediction c).rangeMin = ((mkPrediction c).value : ℝ) - (mkPrediction c).stdDev ∧
    (mkPrediction c).rangeMax = ((mkPrediction c).value : ℝ) + (mkPrediction c).stdDev ∧
    (mkPrediction c).samples = (windowOf series tm td).length := by
  obtain ⟨hpos, hval, hvar, hsamp⟩ := forecastCore_eq series tm td c hc
  refine ⟨by rw [forecastFor, hc]; rfl, ?_, List.sorted_insertionSort byDateDesc _,
    List.perm_insertionSort byDateDesc _, ?_, rfl, rfl, ?_⟩
  · rw [mkPrediction_value, hval, predictedOf_eq_spec]
  · rw [mkPrediction_stdDev, mkPrediction_value, hvar, specVariance, List.length_map]
  · rw [mkPrediction_samples, hsamp]

theorem forecast_matches_reference_witness :
    forecastCore [("20230615", (6 : ℚ)), ("20220615", 6)] 5 15 = some ⟨6, 0, 2⟩ ∧
    (forecastFor [("20230615", (6 : ℚ)), ("20220615", 6)] 5 15 =
        some (mkPrediction ⟨6, 0, 2⟩) ∧
      (mkPrediction ⟨6, 0, 2⟩).value = specWeightedMean
        ((List.insertionSort byDateDesc
          (windowOf [("20230615", (6 : ℚ)), ("20220615", 6)] 5 15)).map itemVal) ∧
      List.Sorted byDateDesc (List.insertionSort byDateDesc
        (windowOf [("20230615", (6 : ℚ)), ("20220615", 6)] 5 15)) ∧
      (List.insertionSort byDateDesc
        (windowOf [("20230615", (6 : ℚ)), ("20220615", 6)] 5 15)).Perm
        (windowOf [("20230615", (6 : ℚ)), ("20220615", 6)] 5 15) ∧
      (mkPrediction ⟨6, 0, 2⟩).stdDev = Real.sqrt ((specVariance
        ((windowOf [("20230615", (6 : ℚ)), ("20220615", 6)] 5 15).map itemVal)
        ((mkPrediction ⟨6, 0, 2⟩).value) : ℚ) : ℝ) ∧
      (mkPrediction ⟨6, 0, 2⟩).rangeMin =
        ((mkPrediction ⟨6, 0, 2⟩).value : ℝ) - (mkPrediction ⟨6, 0, 2⟩).stdDev ∧
      (mkPrediction ⟨6, 0, 2⟩).rangeMax =
        ((mkPrediction ⟨6, 0, 2⟩).value : ℝ) + (mkPrediction ⟨6, 0, 2⟩).stdDev ∧
      (mkPrediction ⟨6, 0, 2⟩).samples =
        (windowOf [("20230615", (6 : ℚ)), ("20220615", 6)] 5 15).length) := by
  have hw : windowOf [("20230615", (6 : ℚ)), ("20220615", 6)] 5 15 =
      [⟨some ⟨2023, 5, 15⟩, JsNum.num 6⟩, ⟨some ⟨2022, 5, 15⟩, JsNum.num 6⟩] := by
    decide
  have hs : List.insertionSort byDateDesc
      [(⟨some ⟨2023, 5, 15⟩, JsNum.num 6⟩ : VItem), ⟨some ⟨2022, 5, 15⟩, JsNum.num 6⟩] =
      [⟨some ⟨2023, 5, 15⟩, JsNum.num 6⟩, ⟨some ⟨2022, 5, 15⟩, JsNum.num 6⟩] := by
    decide
  have hcore : forecastCore [("20230615", (6 : ℚ)), ("20220615", 6)] 5 15 =
      some ⟨6, 0, 2⟩ := by
    simp only [forecastCore, hw, hs]
    norm_num [predictedOf, weightedSums, itemVal, JsNum.toRat]
  exact ⟨hcore, forecast_matches_reference [("20230615", (6 : ℚ)), ("20220615", 6)]
    5 15 ⟨6, 0, 2⟩ hcore⟩

theorem weightedSums_replicate (q : ℚ) (n : ℕ) : ∀ k : ℕ,
    weightedSums (List.replicate n q) k = (q * wsum k n, wsum k n) := by
  induction n with
  | zero => intro k; simp [weightedSums, wsum]
  | succ n ih =>
    intro k
    rw [List.replicate_succ, weightedSums, ih (k + 1), wsum]
    refine Prod.ext ?_ ?_ <;> simp only <;> ring

theorem weightedSums_append (xs ys : List ℚ) : ∀ k : ℕ,
    weightedSums (xs ++ ys) k =
      ((weightedSums xs k).1 + (weightedSums ys (k + xs.length)).1,
       (weightedSums xs k).2 + (weightedSums ys (k + xs.length)).2) := by
  induction xs with
  | nil => intro k; simp [weightedSums]
  | cons x xs ih =>
    intro k
    rw [List.cons_append, weightedSums, ih (k + 1), weightedSums]
    refine Prod.ext ?_ ?_ <;> simp only [List.length_cons] <;>
      rw [show k + 1 + xs.length = k + (xs.length + 1) from by omega] <;> ring

theorem wsum_nonneg (n : ℕ) : ∀ k : ℕ, 0 ≤ wsum k n := by
  induction n with
  | zero => intro k; simp [wsum]
  | succ n ih =>
    intro k
    rw [wsum]
    have h1 : (0 : ℚ) ≤ 1 / ((k : ℚ) + 1) := by positivity
    exact add_nonneg h1 (ih (k + 1))

theorem wsum_pos (k n : ℕ) (hn : 1 ≤ n) : 0 < wsum k n := by
  cases n with
  | zero => omega
  | succ n =>
    rw [wsum]
    have h1 : (0 : ℚ) < 1 / ((k : ℚ) + 1) := by positivity
    exact add_pos_of_pos_of_nonneg h1 (wsum_nonneg n (k + 1))

theorem wsum_anti (n : ℕ) : ∀ k j : ℕ, k ≤ j → wsum j n ≤ wsum k n := by
  induction n with
  | zero => intro k j _; simp [wsum]
  | succ n ih =>
    intro k j hkj
    rw [wsum, wsum]
    have h1 : 1 / ((j : ℚ) + 1) ≤ 1 / ((k : ℚ) + 1) := by
      apply one_div_le_one_div_of_le
      · positivity
      · exact_mod_cast Nat.add_le_add_right hkj 1
    exact add_le_add h1 (ih (k + 1) (j + 1) (Nat.add_le_add_right hkj 1))

theorem wsum_strict_anti (n : ℕ) (hn : 1 ≤ n) (k j : ℕ) (hkj : k < j) :
    wsum j n < wsum k n := by
  cases n with
  | zero => omega
  | succ n =>
    rw [wsum, wsum]
    have h1 : 1 / ((j : ℚ) + 1) < 1 / ((k : ℚ) + 1) := by
      apply one_div_lt_one_div_of_lt
      · positivity
      · exact_mod_cast Nat.add_lt_add_right hkj 1
    exact add_lt_add_of_lt_of_le h1
      (wsum_anti n (k + 1) (j + 1) (Nat.add_lt_add_right hkj 1).le)

/-- Claim C9 counterexample: a fixture with two years of same-month
windowed data, all year-1 values 10 and all year-2 (more recent) values
20, for which the weighted predictor returns 74/5 = 14.8: strictly
between 10 and 20 but NOT strictly greater than 15 (one recent value
against three older ones). -/
theorem recency_fixture_not_above_15 :
    (forecastFor [("20230615", (20 : ℚ)), ("20220612", 10), ("20220615", 10),
        ("20220618", 10)] 5 15).map Prediction.value = some (74 / 5) ∧
    ¬ (15 < (74 / 5 : ℚ)) ∧ 10 < (74 / 5 : ℚ) ∧ (74 / 5 : ℚ) < 20 := by
  refine ⟨?_, by norm_num, by norm_num, by norm_num⟩
  have hw : windowOf [("20230615", (20 : ℚ)), ("20220612", 10), ("20220615", 10),
      ("20220618", 10)] 5 15 =
      [⟨some ⟨2023, 5, 15⟩, JsNum.num 20⟩, ⟨some ⟨2022, 5, 12⟩, JsNum.num 10⟩,
       ⟨some ⟨2022, 5, 15⟩, JsNum.num 10⟩, ⟨some ⟨2022, 5, 18⟩, JsNum.num 10⟩] := by
    decide
  have hs : List.insertionSort byDateDesc
      [(⟨some ⟨2023, 5, 15⟩, JsNum.num 20⟩ : VItem), ⟨some ⟨2022, 5, 12⟩, JsNum.num 10⟩,
       ⟨some ⟨2022, 5, 15⟩, JsNum.num 10⟩, ⟨some ⟨2022, 5, 18⟩, JsNum.num 10⟩] =
      [⟨some ⟨2023, 5, 15⟩, JsNum.num 20⟩, ⟨some ⟨2022, 5, 18⟩, JsNum.num 10⟩,
       ⟨some ⟨2022, 5, 15⟩, JsNum.num 10⟩, ⟨some ⟨2022, 5, 12⟩, JsNum.num 10⟩] := by
    decide
  have hcore : forecastCore [("20230615", (20 : ℚ)), ("20220612", 10), ("20220615", 10),
      ("20220618", 10)] 5 15 = some ⟨74 / 5, 601 / 25, 4⟩ := by
    simp only [forecastCore, hw, hs]
    norm_num [predictedOf, weightedSums, itemVal, JsNum.toRat]
  rw [forecastFor, hcore]
  rfl

/-- Claim C9 (amended): when the two years contribute the same number
n >= 1 of windowed values each (the more recent year's values all 20 and
listed first after the date-descending sort, the older year's all 10), the
weighted predictor's value is strictly between 10 and 20 and strictly
greater than 15. -/
theorem recency_weighting_equal_counts (n : ℕ) (hn : 1 ≤ n) :
    10 < predictedOf (List.replicate n (20 : ℚ) ++ List.replicate n 10) ∧
    15 < predictedOf (List.replicate n (20 : ℚ) ++ List.replicate n 10) ∧
    predictedOf (List.replicate n (20 : ℚ) ++ List.replicate n 10) < 20 := by
  have hA : 0 < wsum 0 n := wsum_pos 0 n hn
  have hB : 0 < wsum n n := wsum_pos n n hn
  have hBA : wsum n n < wsum 0 n := wsum_strict_anti n hn 0 n (by omega)
  have hval : predictedOf (List.replicate n (20 : ℚ) ++ List.replicate n 10)
      = (20 * wsum 0 n + 10 * wsum n n) / (wsum 0 n + wsum n n) := by
    rw [predictedOf, weightedSums_append, weightedSums_replicate,
      weightedSums_replicate]
    simp [List.length_replicate]
  rw [hval]
  have hden : 0 < wsum 0 n + wsum n n := by linarith
  refine ⟨?_, ?_, ?_⟩
  · rw [lt_div_iff₀ hden]; linarith
  · rw [lt_div_iff₀ hden]; linarith
  · rw [div_lt_iff₀ hden]; linarith

theorem recency_weighting_equal_counts_witness :
    1 ≤ 2 ∧
    (10 < predictedOf (List.replicate 2 (20 : ℚ) ++ List.replicate 2 10) ∧
     15 < predictedOf (List.replicate 2 (20 : ℚ) ++ List.replicate 2 10) ∧
     predictedOf (List.replicate 2 (20 : ℚ) ++ List.replicate 2 10) < 20) :=
  ⟨by norm_num, recency_weighting_equal_counts 2 (by norm_num)⟩

theorem forecastFor_eq_none_of_empty (series : List (String × ℚ)) (tm td : ℤ)
    (h : windowOf series tm td = []) : forecastFor series tm td = none := by
  rw [forecastFor, forecastCore, h]
  rfl

theorem mem_generateForecastAll {data : List (String × List (String × ℚ))} {tm td : ℤ}
    {q : String × Prediction} (hq : q ∈ generateForecastAll data tm td) :
    ∃ pr ∈ data, q.1 = pr.1 ∧ forecastFor pr.2 tm td = some q.2 := by
  rw [generateForecastAll] at hq
  obtain ⟨pr, hpr, hmap⟩ := List.mem_filterMap.mp hq
  rw [Option.map_eq_some'] at hmap
  obtain ⟨p, hp, rfl⟩ := hmap
  exact ⟨pr, hpr, rfl, hp⟩

/-- Claim C6: if every series requested under a variable name has an empty
seasonal window (in particular an empty series), then the forecast result
has no entry for that variable, and the whole result equals the result of
the same request with that variable removed, so all other variables'
predictions are untouched (and no error is raised: the function is total). -/
theorem empty_window_variable_absent (data : List (String × List (String × ℚ)))
    (tm td : ℤ) (v : String)
    (h : ∀ pr ∈ data, pr.1 = v → windowOf pr.2 tm td = []) :
    generateForecastAll data tm td =
      generateForecastAll (data.filter (fun pr => pr.1 != v)) tm td ∧
    ∀ q ∈ generateForecastAll data tm td, q.1 ≠ v := by
  constructor
  · induction data with
    | nil => rfl
    | cons pr rest ih =>
      have hrest := ih (fun r hr => h r (List.mem_cons_of_mem pr hr))
      by_cases hv : pr.1 = v
      · have hnone : forecastFor pr.2 tm td = none :=
          forecastFor_eq_none_of_empty pr.2 tm td (h pr (List.mem_cons_self pr rest) hv)
        rw [generateForecastAll, List.filterMap_cons, hnone]
        simp only [Option.map_none']
        rw [List.filter_cons, if_neg (by simp [hv])]
        exact hrest
      · rw [generateForecastAll, List.filterMap_cons,
          List.filter_cons, if_pos (by simp [hv])]
        rw [generateForecastAll, List.filterMap_cons]
        cases hfc : (forecastFor pr.2 tm td).map (fun p => (pr.1, p)) with
        | none => exact hrest
        | some qq => exact congrArg (List.cons qq) hrest
  · intro q hq hqv
    obtain ⟨pr, hpr, hq1, hsome⟩ := mem_generateForecastAll hq
    have hnone : forecastFor pr.2 tm td = none :=
      forecastFor_eq_none_of_empty pr.2 tm td (h pr hpr (by rw [← hq1, hqv]))
    rw [hnone] at hsome
    cases hsome

theorem empty_window_variable_absent_witness :
    (∀ pr ∈ [("T2M", ([] : List (String × ℚ))), ("PS", [("20230615", (5 : ℚ))])],
      pr.1 = "T2M" → windowOf pr.2 5 15 = []) ∧
    (generateForecastAll [("T2M", ([] : List (String × ℚ))),
        ("PS", [("20230615", (5 : ℚ))])] 5 15 =
      generateForecastAll ([("T2M", ([] : List (String × ℚ))),
        ("PS", [("20230615", (5 : ℚ))])].filter (fun pr => pr.1 != "T2M")) 5 15 ∧
     ∀ q ∈ generateForecastAll [("T2M", ([] : List (String × ℚ))),
        ("PS", [("20230615", (5 : ℚ))])] 5 15, q.1 ≠ "T2M") := by
  have h : ∀ pr ∈ [("T2M", ([] : List (String × ℚ))), ("PS", [("20230615", (5 : ℚ))])],
      pr.1 = "T2M" → windowOf pr.2 5 15 = [] := by
    intro pr hpr hv
    rcases List.mem_cons.mp hpr with rfl | hpr2
    · rfl
    · rcases List.mem_cons.mp hpr2 with rfl | hnil
      · exact absurd hv (by decide)
      · cases hnil
  exact ⟨h, empty_window_variable_absent _ 5 15 "T2M" h⟩

theorem mem_keysInOrderAux (a : ℤ) :
    ∀ (l seen : List ℤ), a ∈ keysInOrderAux l seen ↔ a ∈ l ∧ a ∉ seen := by
  intro l
  induction l with
  | nil => intro seen; simp [keysInOrderAux]
  | cons y ys ih =>
    intro seen
    rw [keysInOrderAux]
    by_cases hy : y ∈ seen
    · rw [if_pos hy, ih seen]
      constructor
      · exact fun ⟨h1, h2⟩ => ⟨List.mem_cons_of_mem y h1, h2⟩
      · rintro ⟨h1, h2⟩
        rcases List.mem_cons.mp h1 with rfl | h3
        · exact absurd hy h2
        · exact ⟨h3, h2⟩
    · rw [if_neg hy]
      constructor
      · intro h
        rcases List.mem_cons.mp h with rfl | h2
        · exact ⟨List.mem_cons_self a ys, hy⟩
        · obtain ⟨h3, h4⟩ := (ih (y :: seen)).mp h2
          exact ⟨List.mem_cons_of_mem y h3,
            fun hc => h4 (List.mem_cons_of_mem y hc)⟩
      · rintro ⟨h1, h2⟩
        by_cases hay : a = y
        · exact hay ▸ List.mem_cons_self a _
        · rcases List.mem_cons.mp h1 with rfl | h3
          · exact absurd rfl hay
          · refine List.mem_cons_of_mem y ((ih (y :: seen)).mpr ⟨h3, ?_⟩)
            intro hc
            rcases List.mem_cons.mp hc with rfl | h4
            · exact hay rfl
            · exact h2 h4

theorem nodup_keysInOrderAux :
    ∀ (l seen : List ℤ), (keysInOrderAux l seen).Nodup := by
  intro l
  induction l with
  | nil => intro seen; simp [keysInOrderAux]
  | cons y ys ih =>
    intro seen
    rw [keysInOrderAux]
    by_cases hy : y ∈ seen
    · rw [if_pos hy]; exact ih seen
    · rw [if_neg hy]
      refine List.nodup_cons.mpr ⟨?_, ih (y :: seen)⟩
      intro hc
      exact ((mem_keysInOrderAux y ys (y :: seen)).mp hc).2 (List.mem_cons_self y seen)

theorem mem_keysInOrder (a : ℤ) (l : List ℤ) : a ∈ keysInOrder l ↔ a ∈ l := by
  rw [keysInOrder, mem_keysInOrderAux]
  simp

theorem nodup_keysInOrder (l : List ℤ) : (keysInOrder l).Nodup :=
  nodup_keysInOrderAux l []

theorem specYearMonthVals_cons_match (s : String) (q : ℚ) (rest : List (String × ℚ))
    (tm y : ℤ) (d : CivilDate) (hd : parseDate8 s = some d)
    (h : d.month = tm ∧ d.year = y) :
    specYearMonthVals ((s, q) :: rest) tm y = q :: specYearMonthVals rest tm y := by
  rw [specYearMonthVals, List.filterMap_cons]
  simp only [hd]
  rw [if_pos h]
  rfl

theorem specYearMonthVals_cons_skip (s : String) (q : ℚ) (rest : List (String × ℚ))
    (tm y : ℤ) (h : ∀ d, parseDate8 s = some d → ¬(d.month = tm ∧ d.year = y)) :
    specYearMonthVals ((s, q) :: rest) tm y = specYearMonthVals rest tm y := by
  rw [specYearMonthVals, List.filterMap_cons]
  cases hd : parseDate8 s with
  | none => rfl
  | some d =>
    simp only [hd]
    rw [if_neg (h d hd)]
    rfl

theorem entryItems_inj (series : List (String × ℚ)) :
    entryItems (series.map (fun e => (e.1, JsNum.num e.2))) =
      series.map (fun e => VItem.mk (parseDate8 e.1) (JsNum.num e.2)) := by
  rw [entryItems, List.map_map]
  rfl

theorem monthYear_filter_eq (tm y : ℤ) : ∀ series : List (String × ℚ),
    (((series.map (fun e => VItem.mk (parseDate8 e.1) (JsNum.num e.2))).filter
        (fun it => !it.value.isNaN && monthMatchB tm it)).filter
        (fun it => it.date.map CivilDate.year == some y)).map itemVal
      = specYearMonthVals series tm y := by
  intro series
  induction series with
  | nil => rfl
  | cons e rest ih =>
    rcases e with ⟨s, q⟩
    simp only [List.map_cons, List.filter_cons]
    cases hd : parseDate8 s with
    | none =>
      have hP : (!(JsNum.num q).isNaN &&
          monthMatchB tm (VItem.mk none (JsNum.num q))) = false := by
        simp [monthMatchB, JsNum.isNaN]
      rw [if_neg (by simp [hP]),
        specYearMonthVals_cons_skip s q rest tm y
          (by intro d' hdd; rw [hd] at hdd; cases hdd)]
      exact ih
    | some d =>
      by_cases hm : d.month = tm
      · have hP : (!(JsNum.num q).isNaN &&
            monthMatchB tm (VItem.mk (some d) (JsNum.num q))) = true := by
          simp [monthMatchB, JsNum.isNaN, hm]
        rw [if_pos hP]
        simp only [List.filter_cons]
        by_cases hy : d.year = y
        · have hQ : ((VItem.mk (some d) (JsNum.num q)).date.map CivilDate.year ==
              some y) = true := by simp [hy]
          rw [if_pos hQ]
          simp only [List.map_cons]
          rw [specYearMonthVals_cons_match s q rest tm y d hd ⟨hm, hy⟩]
          exact congrArg (List.cons q) ih
        · have hQ : ¬(((VItem.mk (some d) (JsNum.num q)).date.map CivilDate.year ==
              some y) = true) := by simp [hy]
          rw [if_neg hQ,
            specYearMonthVals_cons_skip s q rest tm y
              (by intro d' hdd; rw [hd] at hdd; cases hdd; exact fun hc => hy hc.2)]
          exact ih
      · have hP : ¬((!(JsNum.num q).isNaN &&
            monthMatchB tm (VItem.mk (some d) (JsNum.num q))) = true) := by
          simp [monthMatchB, JsNum.isNaN, hm]
        rw [if_neg hP,
          specYearMonthVals_cons_skip s q rest tm y
            (by intro d' hdd; rw [hd] at hdd; cases hdd; exact fun hc => hm hc.1)]
        exact ih

theorem yearVals_perm_spec (series : List (String × ℚ)) (tm y : ℤ) :
    (yearVals (trendFiltered (series.map (fun e => (e.1, JsNum.num e.2))) tm) y).Perm
      (specYearMonthVals series tm y) := by
  rw [yearVals, trendFiltered, entryItems_inj]
  have hperm := List.perm_insertionSort byDateAsc
    ((series.map (fun e => VItem.mk (parseDate8 e.1) (JsNum.num e.2))).filter
      (fun it => !it.value.isNaN && monthMatchB tm it))
  have h2 := (hperm.filter (fun it => it.date.map CivilDate.year == some y)).map itemVal
  rw [monthYear_filter_eq tm y series] at h2
  exact h2

theorem generateTimeSeriesData_eq (series : List (String × ℚ)) (tm : ℤ) :
    generateTimeSeriesData series tm = List.insertionSort byYearAsc
      ((keysInOrder ((trendFiltered (series.map (fun e => (e.1, JsNum.num e.2))) tm).filterMap
          yearOf)).map
        (fun y => (y, (yearVals (trendFiltered (series.map
            (fun e => (e.1, JsNum.num e.2))) tm) y).sum /
          ((yearVals (trendFiltered (series.map
            (fun e => (e.1, JsNum.num e.2))) tm) y).length : ℚ)))) := rfl

theorem mem_trendAgg (items : List VItem) (p : ℤ × ℚ) :
    p ∈ List.insertionSort byYearAsc ((keysInOrder (items.filterMap yearOf)).map
      (fun y => (y, (yearVals items y).sum / ((yearVals items y).length : ℚ)))) ↔
    p.1 ∈ keysInOrder (items.filterMap yearOf) ∧
      p.2 = (yearVals items p.1).sum / ((yearVals items p.1).length : ℚ) := by
  rw [(List.perm_insertionSort byYearAsc _).mem_iff, List.mem_map]
  constructor
  · rintro ⟨y, hy, rfl⟩
    exact ⟨hy, rfl⟩
  · rcases p with ⟨py, pv⟩
    rintro ⟨h1, h2⟩
    exact ⟨py, h1, Prod.ext rfl h2.symm⟩

theorem years_mem_iff (items : List VItem) (y : ℤ) :
    y ∈ keysInOrder (items.filterMap yearOf) ↔ yearVals items y ≠ [] := by
  rw [mem_keysInOrder, List.mem_filterMap]
  constructor
  · rintro ⟨it, hit, hy⟩
    apply List.ne_nil_of_mem (a := itemVal it)
    rw [yearVals]
    refine List.mem_map_of_mem _ (List.mem_filter.mpr ⟨hit, ?_⟩)
    rw [yearOf] at hy
    simp [hy]
  · intro hne
    obtain ⟨v, hv⟩ := List.exists_mem_of_ne_nil _ hne
    rw [yearVals] at hv
    obtain ⟨it, hit, rfl⟩ := List.mem_map.mp hv
    have hmf := List.mem_filter.mp hit
    refine ⟨it, hmf.1, ?_⟩
    rw [yearOf]
    simpa using hmf.2

theorem trendAgg_pairwise (items : List VItem) :
    (List.insertionSort byYearAsc ((keysInOrder (items.filterMap yearOf)).map
      (fun y => (y, (yearVals items y).sum /
        ((yearVals items y).length : ℚ))))).Pairwise (fun p q => p.1 < q.1) := by
  have hsorted : (List.insertionSort byYearAsc ((keysInOrder (items.filterMap yearOf)).map
      (fun y => (y, (yearVals items y).sum / ((yearVals items y).length : ℚ))))).Pairwise
      byYearAsc := List.sorted_insertionSort byYearAsc _
  have hnd : ((keysInOrder (items.filterMap yearOf)).map
      (fun y => ((y, (yearVals items y).sum / ((yearVals items y).length : ℚ)) : ℤ × ℚ))).Pairwise
      (fun p q => p.1 ≠ q.1) := by
    refine List.Pairwise.map _ (fun a b h => ?_) (nodup_keysInOrder (items.filterMap yearOf))
    simpa using h
  have hne : (List.insertionSort byYearAsc ((keysInOrder (items.filterMap yearOf)).map
      (fun y => (y, (yearVals items y).sum / ((yearVals items y).length : ℚ))))).Pairwise
      (fun p q => p.1 ≠ q.1) := by
    refine ((List.perm_insertionSort byYearAsc _).pairwise_iff ?_).mpr hnd
    intro a b h
    exact h.symm
  exact (hsorted.and hne).imp (fun h => lt_of_le_of_ne h.1 h.2)

theorem perm_eq_nil_iff {α : Type _} {l1 l2 : List α} (h : l1.Perm l2) :
    l1 = [] ↔ l2 = [] :=
  ⟨fun he => List.length_eq_zero.mp (by rw [← h.length_eq, he]; rfl),
   fun he => List.length_eq_zero.mp (by rw [h.length_eq, he]; rfl)⟩

/-- Claim C5: the trend aggregator emits exactly one point per year having
at least one valid observation in the target month (no day-window
restriction); each point's value is the arithmetic mean of exactly that
year's same-month values, recomputed from the raw series; the points are
strictly ascending by year; and years with no same-month observation are
entirely absent. -/
theorem trend_points_correct (series : List (String × ℚ)) (tm : ℤ) :
    (∀ p ∈ generateTimeSeriesData series tm,
      specYearMonthVals series tm p.1 ≠ [] ∧
      p.2 = (specYearMonthVals series tm p.1).sum /
        ((specYearMonthVals series tm p.1).length : ℚ)) ∧
    (generateTimeSeriesData series tm).Pairwise (fun p q => p.1 < q.1) ∧
    (∀ y : ℤ, (∃ v, (y, v) ∈ generateTimeSeriesData series tm) ↔
      specYearMonthVals series tm y ≠ []) := by
  refine ⟨?_, ?_, ?_⟩
  · intro p hp
    rw [generateTimeSeriesData_eq, mem_trendAgg] at hp
    obtain ⟨h1, h2⟩ := hp
    have hperm := yearVals_perm_spec series tm p.1
    have hne := (years_mem_iff _ p.1).mp h1
    refine ⟨fun hnil => hne ((perm_eq_nil_iff hperm).mpr hnil), ?_⟩
    rw [h2, hperm.sum_eq, hperm.length_eq]
  · rw [generateTimeSeriesData_eq]
    exact trendAgg_pairwise _
  · intro y
    have hperm := yearVals_perm_spec series tm y
    constructor
    · rintro ⟨v, hv⟩
      rw [generateTimeSeriesData_eq, mem_trendAgg] at hv
      have hne := (years_mem_iff _ _).mp hv.1
      exact fun hnil => hne ((perm_eq_nil_iff hperm).mpr hnil)
    · intro hnil
      have hne : yearVals (trendFiltered (series.map
          (fun e => (e.1, JsNum.num e.2))) tm) y ≠ [] :=
        fun h => hnil ((perm_eq_nil_iff hperm).mp h)
      refine ⟨(yearVals (trendFiltered (series.map
          (fun e => (e.1, JsNum.num e.2))) tm) y).sum /
        ((yearVals (trendFiltered (series.map
          (fun e => (e.1, JsNum.num e.2))) tm) y).length : ℚ), ?_⟩
      rw [generateTimeSeriesData_eq, mem_trendAgg]
      exact ⟨(years_mem_iff _ _).mpr hne, rfl⟩

theorem trend_points_correct_witness :
    ((2023 : ℤ), (6 : ℚ)) ∈ generateTimeSeriesData
      [("20230610", (4 : ℚ)), ("20230620", 8)] 5 ∧
    (specYearMonthVals [("20230610", (4 : ℚ)), ("20230620", 8)] 5 2023 ≠ [] ∧
     (6 : ℚ) = (specYearMonthVals [("20230610", (4 : ℚ)), ("20230620", 8)] 5 2023).sum /
       ((specYearMonthVals [("20230610", (4 : ℚ)), ("20230620", 8)] 5 2023).length : ℚ)) := by
  have hv : yearVals (trendFiltered [("20230610", JsNum.num 4),
      ("20230620", JsNum.num 8)] 5) 2023 = [4, 8] := by decide
  have hmem : ((2023 : ℤ), (6 : ℚ)) ∈ generateTimeSeriesData
      [("20230610", (4 : ℚ)), ("20230620", 8)] 5 := by
    rw [generateTimeSeriesData_eq, mem_trendAgg]
    refine ⟨by decide, ?_⟩
    norm_num [hv]
  have h2 := (trend_points_correct [("20230610", (4 : ℚ)), ("20230620", 8)] 5).1 _ hmem
  exact ⟨hmem, by simpa using h2⟩
